import Mathlib

/-
Verification of the entity-reconciliation and aggregation pipeline of the
african-climate-news repository (src/main.py), as a shallow embedding.

Strings are modelled as lists of Unicode codepoints (List Nat), so that the
exact Python string operations of the source (str.lower, str.strip,
str.replace, dict lookup) can be embedded and every concrete computation is
decidable.  Missing values (pandas NaN / Python None) are modelled with
Option; float columns are modelled by the PFloat type below, which keeps the
special values nan and the infinities of IEEE division explicit.
-/

namespace ACN

/-- A Python string, as its list of Unicode codepoints. -/
abbrev Str := List Nat

/-- Python str.lower restricted to the Basic Latin and Latin-1 ranges, the
only character ranges occurring in this program (ASCII letters and the
accented letters of the alias table).  Codepoint 215 is the multiplication
sign, which has no case. -/
def lowerN (c : Nat) : Nat :=
  if 65 ≤ c ∧ c ≤ 90 then c + 32
  else if 192 ≤ c ∧ c ≤ 222 ∧ c ≠ 215 then c + 32
  else c

/-- Whitespace for Python str.strip: ASCII whitespace, NEL and NBSP
(the whitespace codepoints that can occur in the data of this program). -/
def isSpaceB (c : Nat) : Bool :=
  c == 32 || c == 9 || c == 10 || c == 11 || c == 12 || c == 13 || c == 133 || c == 160

/-- One character of Python str.replace of NBSP (160) by a space, as applied
at src/main.py line 62. -/
def replaceNbsp (c : Nat) : Nat := if c = 160 then 32 else c

/-- Leading-whitespace removal (left half of Python str.strip). -/
def stripL (l : Str) : Str := l.dropWhile isSpaceB

/-- Trailing-whitespace removal (right half of Python str.strip). -/
def stripR : Str → Str
  | [] => []
  | c :: rest =>
    if (stripR rest).isEmpty && isSpaceB c then [] else c :: stripR rest

/-- Python str.strip: remove whitespace at both ends. -/
def strip (l : Str) : Str := stripL (stripR l)

/-- The normalization inside clean_country (src/main.py lines 59-64):
str(name).lower().replace(nbsp, space).strip(). -/
def pyNorm (l : Str) : Str := strip ((l.map lowerN).map replaceNbsp)

/-- The COUNTRY_ALIASES dict of src/main.py lines 16-54, exactly as Python
parses it.  Note two artifacts of the source text: the entry at line 24 has
no value, so Python implicit string concatenation fuses it with the next
key, producing the single key "Eq.Guinea: eqdem. rep. congo"; and the key
at line 22 is "Djibouti." with an upper-case initial. -/
def COUNTRY_ALIASES : List (Str × Str) := [
  -- "south sudan" -> "s. sudan"
  ([115,111,117,116,104,32,115,117,100,97,110], [115,46,32,115,117,100,97,110]),
  -- "republic of djibouti" -> "djibouti"
  ([114,101,112,117,98,108,105,99,32,111,102,32,100,106,105,98,111,117,116,105],
   [100,106,105,98,111,117,116,105]),
  -- "Djibouti." -> "djibouti"
  ([68,106,105,98,111,117,116,105,46], [100,106,105,98,111,117,116,105]),
  -- "Eq.Guinea: eqdem. rep. congo" -> "dem. rep. congo"
  ([69,113,46,71,117,105,110,101,97,58,32,101,113,100,101,109,46,32,114,101,112,46,32,99,111,110,103,111],
   [100,101,109,46,32,114,101,112,46,32,99,111,110,103,111]),
  -- "democratic republic of the congo" -> "dem. rep. congo"
  ([100,101,109,111,99,114,97,116,105,99,32,114,101,112,117,98,108,105,99,32,111,102,32,116,104,101,32,99,111,110,103,111],
   [100,101,109,46,32,114,101,112,46,32,99,111,110,103,111]),
  -- "central african republic" -> "central african rep."
  ([99,101,110,116,114,97,108,32,97,102,114,105,99,97,110,32,114,101,112,117,98,108,105,99],
   [99,101,110,116,114,97,108,32,97,102,114,105,99,97,110,32,114,101,112,46]),
  -- "cote d ivoire" with circumflex o and ASCII apostrophe -> "ivory coast"
  ([99,244,116,101,32,100,39,105,118,111,105,114,101], [105,118,111,114,121,32,99,111,97,115,116]),
  -- "cote d ivoire" plain, with ASCII apostrophe -> "ivory coast"
  ([99,111,116,101,32,100,39,105,118,111,105,114,101], [105,118,111,114,121,32,99,111,97,115,116]),
  -- "eq guinea" -> "equatorial guinea"
  ([101,113,32,103,117,105,110,101,97], [101,113,117,97,116,111,114,105,97,108,32,103,117,105,110,101,97]),
  -- "equatorial guinea" -> "equatorial guinea"
  ([101,113,117,97,116,111,114,105,97,108,32,103,117,105,110,101,97],
   [101,113,117,97,116,111,114,105,97,108,32,103,117,105,110,101,97]),
  -- "the gambia" -> "gambia"
  ([116,104,101,32,103,97,109,98,105,97], [103,97,109,98,105,97]),
  -- "sao tome and principe" plain -> accented "sao tome and principe"
  ([115,97,111,32,116,111,109,101,32,97,110,100,32,112,114,105,110,99,105,112,101],
   [115,227,111,32,116,111,109,233,32,97,110,100,32,112,114,237,110,99,105,112,101]),
  -- accented "sao tome and principe" with plain i -> fully accented value
  ([115,227,111,32,116,111,109,233,32,97,110,100,32,112,114,105,110,99,105,112,101],
   [115,227,111,32,116,111,109,233,32,97,110,100,32,112,114,237,110,99,105,112,101]),
  -- "cape verde" -> "cabo verde"
  ([99,97,112,101,32,118,101,114,100,101], [99,97,98,111,32,118,101,114,100,101]),
  -- "swaziland" -> "eswatini"
  ([115,119,97,122,105,108,97,110,100], [101,115,119,97,116,105,110,105])
]

/-- Python dict lookup (first matching key; the keys of the dict are
distinct). -/
def lookupA (k : Str) : List (Str × Str) → Option Str
  | [] => none
  | (k2, v) :: rest => if k = k2 then some v else lookupA k rest

/-- clean_country of src/main.py lines 55-66: None for missing input, else
normalize and look the result up in COUNTRY_ALIASES with identity fallback. -/
def clean_country : Option Str → Option Str
  | none => none
  | some s =>
    let n := pyNorm s
    some ((lookupA n COUNTRY_ALIASES).getD n)

/-- A pandas float cell: NaN (also the missing value), the two infinities,
or a finite value.  Finite values are kept exact as rationals; the claims
proved below depend only on the nan / infinite / finite classification and
on signs, which exact arithmetic models faithfully. -/
inductive PFloat where
  | nan
  | inf
  | ninf
  | fin (q : ℚ)
deriving DecidableEq

/-- IEEE-754 division as performed by numpy/pandas on these columns:
nan propagates, finite/0 is a signed infinity (nan for 0/0), finite/inf is
0, and finite/finite divides exactly.  Negative zero is not distinguished
(it never arises in this pipeline). -/
def PFloat.div : PFloat → PFloat → PFloat
  | .nan, _ => .nan
  | _, .nan => .nan
  | .inf, .inf => .nan
  | .inf, .ninf => .nan
  | .ninf, .inf => .nan
  | .ninf, .ninf => .nan
  | .inf, .fin b => if b < 0 then .ninf else .inf
  | .ninf, .fin b => if b < 0 then .inf else .ninf
  | .fin _, .inf => .fin 0
  | .fin _, .ninf => .fin 0
  | .fin a, .fin b =>
    if b = 0 then (if a = 0 then .nan else if 0 < a then .inf else .ninf)
    else .fin (a / b)

/-- Lines 213-216 of src/main.py, per row:
total_articles / (Population / 1_000_000). -/
def articles_per_million_people (total population : PFloat) : PFloat :=
  PFloat.div total (PFloat.div population (.fin 1000000))

/-- Lines 217-220 of src/main.py, per row: total_articles / GDP. -/
def articles_per_billion_gdp (total gdp : PFloat) : PFloat :=
  PFloat.div total gdp

/-- str.replace of "," by the empty string (lines 162-163). -/
def removeCommas (s : Str) : Str := s.filter (fun c => c != 44)

/-- The cell cleaning of lines 162-163: remove commas, then strip. -/
def cleanCell (s : Str) : Str := strip (removeCommas s)

def allDigits (s : Str) : Bool := s.all (fun c => decide (48 ≤ c ∧ c ≤ 57))

def natVal (s : Str) : Nat := s.foldl (fun acc c => acc * 10 + (c - 48)) 0

def splitOnDot : Str → List Str
  | [] => [[]]
  | c :: rest =>
    if c = 46 then [] :: splitOnDot rest
    else
      match splitOnDot rest with
      | [] => [[c]]
      | p :: ps => (c :: p) :: ps

/-- The pieces of a numeral around its decimal points: one piece means no
point, two pieces mean one point; more points are unparseable. -/
def parseParts : List Str → Option ℚ
  | [a] => if allDigits a ∧ a ≠ [] then some (natVal a : ℚ) else none
  | [a, b] =>
    if (allDigits a ∧ allDigits b) ∧ (a ≠ [] ∨ b ≠ []) then
      some ((natVal a : ℚ) + (natVal b : ℚ) / (10 : ℚ) ^ b.length)
    else none
  | _ => none

/-- An unsigned decimal numeral as pd.to_numeric accepts it here: digits,
optionally with one decimal point; at least one digit overall. -/
def parseUnsigned (s : Str) : Option ℚ :=
  parseParts (splitOnDot s)

/-- pd.to_numeric with errors coerce on one cell string: an optional sign
followed by an unsigned numeral; anything else coerces to NaN (none). -/
def parseNumQ (s : Str) : Option ℚ :=
  if s.head? = some 45 then (parseUnsigned s.tail).map (fun q => -q)
  else if s.head? = some 43 then parseUnsigned s.tail
  else parseUnsigned s

/-- Lines 162-163 applied to one cell: a missing cell stays missing (its
str form "nan" is coerced back to NaN), a present cell is cleaned and
parsed, and an unparseable cell coerces to NaN. -/
def to_numeric_cell (cell : Option Str) : Option ℚ :=
  cell.bind (fun s => parseNumQ (cleanCell s))

/-- The parsed Population column of df_meta (line 162). -/
def parsePopColumn (cells : List (Option Str)) : List (Option ℚ) :=
  cells.map to_numeric_cell

/-- pandas Series.max: maximum over non-missing entries, none when every
entry is missing. -/
def seriesMax (l : List (Option ℚ)) : Option ℚ :=
  l.foldl (fun acc o =>
    match acc, o with
    | none, o2 => o2
    | some m, none => some m
    | some m, some q => some (max m q)) none

/-- Lines 166-167: multiply every population by 1000 when the column
maximum is below one million.  When the column has no non-missing value the
pandas comparison NaN < 1000000 is False and nothing changes. -/
def fixPopulationUnits (l : List (Option ℚ)) : List (Option ℚ) :=
  if (seriesMax l).any (fun m => decide (m < 1000000)) then
    l.map (Option.map (fun q => q * 1000))
  else l

/-- The final Population column of df_meta (lines 162, 166-167). -/
def df_meta_population (cells : List (Option Str)) : List (Option ℚ) :=
  fixPopulationUnits (parsePopColumn cells)

/-- The final GDP column of df_meta (line 163; no unit correction). -/
def df_meta_gdp (cells : List (Option Str)) : List (Option ℚ) :=
  cells.map to_numeric_cell

/-- One row of the combined article table df: the Country and Year columns
(both derived from the file the row came from, lines 84 and 88) and the url
column used by the aggregation.  Other columns play no role in the claims. -/
structure ArticleRow where
  country : Str
  year : Str
  url : Option Str
deriving DecidableEq

/-- One row of df_gb_year_country (lines 131-133): a raw Country label with
its aggregated article count. -/
structure AggRow where
  country : Str
  total_articles : Nat
deriving DecidableEq

/-- One row of df_meta as far as the merges are concerned: raw country
label, parsed population and GDP. -/
structure MetaRow where
  country : Str
  population : PFloat
  gdp : PFloat
deriving DecidableEq

/-- One row of df_map (line 178): the merged article-count and metadata
columns, keyed by Country_clean. -/
structure MapRow where
  key : Option Str
  total_articles : Nat
  population : PFloat
  gdp : PFloat
deriving DecidableEq

/-- One row of df_map_full straight after the merge of line 198, before
fillna: total_articles is still missing for an unmatched geo entity. -/
structure FullRow0 where
  country : Str
  key : Option Str
  total_articles : Option Nat
  population : PFloat
  gdp : PFloat
deriving DecidableEq

/-- One row of df_map_full after fillna(0) on total_articles (line 207). -/
structure FullRow where
  country : Str
  key : Option Str
  total_articles : Nat
  population : PFloat
  gdp : PFloat
deriving DecidableEq

/-- One row of df_map_full after the metric columns of lines 213-220 are
added. -/
structure FinalRow where
  country : Str
  key : Option Str
  total_articles : Nat
  population : PFloat
  gdp : PFloat
  articles_per_million : PFloat
  articles_per_gdp : PFloat
deriving DecidableEq

/-- Country_clean of an aggregated article row (line 136). -/
def aggKey (r : AggRow) : Option Str := clean_country (some r.country)

/-- Country_clean of a metadata row (line 144). -/
def metaKey (m : MetaRow) : Option Str := clean_country (some m.country)

/-- Country_clean of a geo display name (line 196). -/
def geoKey (g : Str) : Option Str := clean_country (some g)

/-- The rows a pandas left merge produces for one left row, given the
matching right rows: all matches in right order, or a single padded row
when there is no match. -/
def mergeRows {β γ : Type} (padRow : γ) (f : β → γ) (ms : List β) : List γ :=
  if ms.isEmpty then [padRow] else ms.map f

/-- pandas DataFrame.merge with how left on one key column: every left row
is combined with each matching right row; an unmatched left row is kept
once, padded with missing values. -/
def leftMerge {α β γ : Type} (kL : α → Option Str) (kR : β → Option Str)
    (pad : α → γ) (comb : α → β → γ) (L : List α) (R : List β) : List γ :=
  L.bind (fun x => mergeRows (pad x) (comb x) (R.filter (fun r => kR r == kL x)))

/-- df_map (lines 178-182): article counts left-merged with metadata on
Country_clean. -/
def df_map (agg : List AggRow) (meta : List MetaRow) : List MapRow :=
  leftMerge aggKey metaKey
    (fun a => ⟨aggKey a, a.total_articles, .nan, .nan⟩)
    (fun a m => ⟨aggKey a, a.total_articles, m.population, m.gdp⟩) agg meta

/-- df_map_full before fillna (lines 198-202): the geo spine left-merged
with df_map on Country_clean. -/
def df_map_full0 (geo : List Str) (mp : List MapRow) : List FullRow0 :=
  leftMerge geoKey MapRow.key
    (fun g => ⟨g, geoKey g, none, .nan, .nan⟩)
    (fun g m => ⟨g, geoKey g, some m.total_articles, m.population, m.gdp⟩) geo mp

/-- fillna(0) on total_articles (line 207). -/
def fillTotal (r : FullRow0) : FullRow :=
  ⟨r.country, r.key, r.total_articles.getD 0, r.population, r.gdp⟩

/-- The reconciled table df_map_full (lines 198-207), from the geo display
names, the aggregated article table and the metadata table. -/
def df_map_full (geo : List Str) (agg : List AggRow) (meta : List MetaRow) : List FullRow :=
  (df_map_full0 geo (df_map agg meta)).map fillTotal

/-- The metric columns of lines 213-220, added to one reconciled row.  The
filled total_articles column is a float column in the source, hence the
cast. -/
def withMetrics (r : FullRow) : FinalRow :=
  ⟨r.country, r.key, r.total_articles, r.population, r.gdp,
   articles_per_million_people (.fin (r.total_articles : ℚ)) r.population,
   articles_per_billion_gdp (.fin (r.total_articles : ℚ)) r.gdp⟩

/-- Codepoint ordering of Python string comparison, as pandas groupby uses
to sort group keys. -/
def strLE : Str → Str → Bool
  | [], _ => true
  | _ :: _, [] => false
  | a :: as, b :: bs => if a < b then true else if b < a then false else strLE as bs

def insertSorted (c : Str) : List Str → List Str
  | [] => [c]
  | d :: rest => if strLE c d then c :: d :: rest else d :: insertSorted c rest

/-- Ascending sort by codepoint order (insertion sort; the group keys are
distinct, so any comparison sort agrees with the pandas one). -/
def sortStr (l : List Str) : List Str := l.foldr insertSorted []

/-- The distinct raw Country labels of the filtered article rows. -/
def distinctCountries (rows : List ArticleRow) : List Str :=
  rows.foldl (fun acc r => if acc.contains r.country then acc else acc ++ [r.country]) []

/-- df_gb_year_country (lines 131-133): group the filtered article rows by
their raw Country label, sorted by key as pandas groupby does, counting the
non-missing url entries of each group. -/
def df_gb_year_country (rows : List ArticleRow) : List AggRow :=
  (sortStr (distinctCountries rows)).map
    (fun c => ⟨c, (rows.filter (fun r => r.country == c)).countP (fun r => r.url.isSome)⟩)

/-- One discovered CSV file: the stem of its filename, the name of its
parent directory, and the url column of its rows (the only row content the
claims need). -/
structure SrcFile where
  stem : Str
  parentName : Str
  urls : List (Option Str)
deriving DecidableEq

/-- A regex word character for the stems occurring here (ASCII letters,
digits and underscore; the stems of this dataset are ASCII). -/
def isWordN (c : Nat) : Bool :=
  decide ((48 ≤ c ∧ c ≤ 57) ∨ (97 ≤ c ∧ c ≤ 122) ∨ (65 ≤ c ∧ c ≤ 90) ∨ c = 95)

def isDigitN (c : Nat) : Bool := decide (48 ≤ c ∧ c ≤ 57)

/-- Whether a word boundary lies between the previous character and a word
character here. -/
def boundaryBefore : Option Nat → Bool
  | none => true
  | some p => !isWordN p

/-- The regex search of line 87: the leftmost occurrence of four digits
with a word boundary on both sides. -/
def findYearFrom : Option Nat → Str → Option Str
  | _, [] => none
  | prev, c1 :: rest1 =>
    match rest1 with
    | c2 :: c3 :: c4 :: rest =>
      if boundaryBefore prev && isDigitN c1 && isDigitN c2 && isDigitN c3 && isDigitN c4 &&
         (match rest with | [] => true | r :: _ => !isWordN r) then
        some [c1, c2, c3, c4]
      else findYearFrom (some c1) rest1
    | _ => none

def findYear (s : Str) : Option Str := findYearFrom none s

/-- Python str.upper on the same ranges as lowerN. -/
def upperN (c : Nat) : Nat :=
  if 97 ≤ c ∧ c ≤ 122 then c - 32
  else if 224 ≤ c ∧ c ≤ 254 ∧ c ≠ 247 then c - 32
  else c

/-- A cased (alphabetic) character on the same ranges. -/
def isAlphaN (c : Nat) : Bool :=
  decide ((65 ≤ c ∧ c ≤ 90) ∨ (97 ≤ c ∧ c ≤ 122) ∨ (192 ≤ c ∧ c ≤ 255 ∧ c ≠ 215 ∧ c ≠ 247))

def titleAux : Bool → Str → Str
  | _, [] => []
  | prevAlpha, c :: rest =>
    (if prevAlpha then lowerN c else upperN c) :: titleAux (isAlphaN c) rest

/-- Python str.title: upper-case each letter that follows a non-letter,
lower-case the rest. -/
def titlePy (s : Str) : Str := titleAux false s

/-- stem.split under score, first piece (line 84). -/
def splitHead (s : Str) : Str := s.takeWhile (fun c => c != 95)

/-- The Country column attached to every row of a file (line 84). -/
def fileCountry (f : SrcFile) : Str := titlePy (strip (splitHead f.stem))

/-- The Year column attached to every row of a file (lines 87-88): the
regex match on the stem, else the parent directory name. -/
def fileYear (f : SrcFile) : Str := (findYear f.stem).getD f.parentName

inductive LoadError where
  | noObjectsToConcatenate
deriving DecidableEq

/-- The frame built from one file (lines 80-94). -/
def loadFrame (f : SrcFile) : List ArticleRow :=
  f.urls.map (fun u => ⟨fileCountry f, fileYear f, u⟩)

/-- pd.concat (line 96): raises ValueError on an empty list of frames. -/
def concatFrames (frames : List (List ArticleRow)) : Except LoadError (List ArticleRow) :=
  if frames.isEmpty then .error .noObjectsToConcatenate else .ok frames.join

/-- load_and_combine_data of src/main.py lines 75-96, over the discovered
files. -/
def load_and_combine_data (files : List SrcFile) : Except LoadError (List ArticleRow) :=
  concatFrames (files.map loadFrame)

def isPrefixB : Str → Str → Bool
  | [], _ => true
  | _ :: _, [] => false
  | a :: as, b :: bs => a == b && isPrefixB as bs

/-- Substring containment, as Python in and as the regex-literal search of
pandas str.contains on a pattern of plain digits (line 124). -/
def hasSub (pat : Str) : Str → Bool
  | [] => pat.isEmpty
  | c :: rest => isPrefixB pat (c :: rest) || hasSub pat rest

/-- The year filter of line 124: keep the rows whose Year string contains
the selected year as a substring. -/
def df_year (rows : List ArticleRow) (year : Str) : List ArticleRow :=
  rows.filter (fun r => hasSub year r.year)

/-- The rename_dict entry built for one column name by the loop of lines
151-156: first the Population rule writes, then the GDP rule overwrites. -/
def rename_dict_entry (c : Str) : Option Str :=
  let e1 : Option Str :=
    if hasSub [80,111,112,117,108,97,116,105,111,110] c
    then some [80,111,112,117,108,97,116,105,111,110] else none
  if hasSub [71,68,80] c then some [71,68,80] else e1

/-- df_meta.rename applied to one column name (line 157): the rename_dict
entry when there is one, else the name unchanged. -/
def renameColumn (c : Str) : Str := (rename_dict_entry c).getD c

/-- The file kenya_2021.csv of the C8 scenario: stem "kenya_2021", parent
directory "AfricanArticles", three rows with url present. -/
def kenya_2021_csv : SrcFile :=
  ⟨[107,101,110,121,97,95,50,48,50,49],
   [65,102,114,105,99,97,110,65,114,116,105,99,108,101,115],
   [some [117,49], some [117,50], some [117,51]]⟩

/-- The file kenya_2022.csv of the C8 scenario: stem "kenya_2022", same
parent directory, five rows with url present. -/
def kenya_2022_csv : SrcFile :=
  ⟨[107,101,110,121,97,95,50,48,50,50],
   [65,102,114,105,99,97,110,65,114,116,105,99,108,101,115],
   [some [117,49], some [117,50], some [117,51], some [117,52], some [117,53]]⟩

/-- Article rows carrying the two raw spellings of the C3 scenario as
Country labels: "Cote d Ivoire" (ASCII apostrophe, title case) and the
all-lower-case spelling with a circumflex o. -/
def coteRows : List ArticleRow :=
  [⟨[67,111,116,101,32,100,39,73,118,111,105,114,101], [50,48,50,49], some [117,49]⟩,
   ⟨[99,244,116,101,32,100,39,105,118,111,105,114,101], [50,48,50,49], some [117,50]⟩]

/-- The geo display name of that entity, "Cote d Ivoire" with circumflex o
and ASCII apostrophe. -/
def coteGeoName : Str := [67,244,116,101,32,100,39,73,118,111,105,114,101]

-- ---------------------------------------------------------------------
-- Theorems
-- ---------------------------------------------------------------------

theorem clean_country_some (s : Str) :
    clean_country (some s) = some ((lookupA (pyNorm s) COUNTRY_ALIASES).getD (pyNorm s)) := rfl

theorem lowerN_lowerN (c : Nat) : lowerN (lowerN c) = lowerN c := by
  simp only [lowerN]
  split_ifs <;> omega

theorem lowerN_replaceNbsp_fix (a : Nat) :
    lowerN (replaceNbsp (lowerN a)) = replaceNbsp (lowerN a) ∧
    replaceNbsp (replaceNbsp (lowerN a)) = replaceNbsp (lowerN a) := by
  simp only [lowerN, replaceNbsp]
  split_ifs <;> omega

theorem map_fix {f : Nat → Nat} : ∀ {l : Str}, (∀ c ∈ l, f c = c) → l.map f = l
  | [], _ => rfl
  | c :: rest, h => by
    simp only [List.map_cons, h c (by simp)]
    rw [map_fix (fun d hd => h d (by simp [hd]))]

theorem stripL_cons_pos {c : Nat} {rest : Str} (hc : isSpaceB c = true) :
    stripL (c :: rest) = stripL rest := by
  simp [stripL, List.dropWhile_cons, hc]

theorem stripL_cons_neg {c : Nat} {rest : Str} (hc : isSpaceB c = false) :
    stripL (c :: rest) = c :: rest := by
  simp [stripL, List.dropWhile_cons, hc]

theorem stripR_cons (c : Nat) (rest : Str) :
    stripR (c :: rest) =
      if (stripR rest).isEmpty && isSpaceB c then [] else c :: stripR rest := by
  rfl

theorem stripR_sublist : ∀ l : Str, List.Sublist (stripR l) l
  | [] => List.Sublist.refl []
  | c :: rest => by
    rw [stripR_cons]
    split
    · exact List.nil_sublist _
    · exact List.Sublist.cons₂ c (stripR_sublist rest)

theorem stripL_sublist : ∀ l : Str, List.Sublist (stripL l) l := by
  intro l
  induction l with
  | nil => exact List.Sublist.refl []
  | cons c rest ih =>
    by_cases hc : isSpaceB c
    · rw [stripL_cons_pos hc]
      exact ih.trans (List.sublist_cons_self c rest)
    · rw [stripL_cons_neg (by simpa using hc)]

theorem strip_subset {c : Nat} {l : Str} (h : c ∈ strip l) : c ∈ l := by
  have h1 : c ∈ stripR l := (stripL_sublist (stripR l)).subset h
  exact (stripR_sublist l).subset h1

theorem stripL_stripL (l : Str) : stripL (stripL l) = stripL l := by
  induction l with
  | nil => rfl
  | cons c rest ih =>
    by_cases hc : isSpaceB c
    · rw [stripL_cons_pos hc, ih]
    · rw [stripL_cons_neg (by simpa using hc), stripL_cons_neg (by simpa using hc)]

theorem stripR_stripR (l : Str) : stripR (stripR l) = stripR l := by
  induction l with
  | nil => rfl
  | cons c rest ih =>
    rw [stripR_cons]
    by_cases hcond : ((stripR rest).isEmpty && isSpaceB c) = true
    · rw [if_pos hcond]
      rfl
    · rw [if_neg hcond, stripR_cons, ih, if_neg hcond]

theorem stripR_stripL_comm (l : Str) : stripR (stripL l) = stripL (stripR l) := by
  induction l with
  | nil => rfl
  | cons c rest ih =>
    by_cases hc : isSpaceB c = true
    · rw [stripL_cons_pos hc, ih, stripR_cons]
      cases h : stripR rest with
      | nil => simp [hc, stripL]
      | cons d ds => simp [hc, stripL, List.dropWhile_cons]
    · have hc2 : isSpaceB c = false := by simpa using hc
      rw [stripL_cons_neg hc2, stripR_cons]
      simp only [hc2, Bool.and_false]
      rw [if_neg (by simp), stripL_cons_neg hc2]

theorem strip_strip (l : Str) : strip (strip l) = strip l := by
  simp only [strip]
  rw [stripR_stripL_comm, stripL_stripL, stripR_stripR]

theorem pyNorm_idem (l : Str) : pyNorm (pyNorm l) = pyNorm l := by
  have hchar : ∀ c ∈ (l.map lowerN).map replaceNbsp, lowerN c = c ∧ replaceNbsp c = c := by
    intro c hc
    simp only [List.mem_map] at hc
    obtain ⟨b, hb, rfl⟩ := hc
    obtain ⟨a, _, rfl⟩ := hb
    exact lowerN_replaceNbsp_fix a
  have hsub : ∀ c ∈ pyNorm l, lowerN c = c ∧ replaceNbsp c = c := by
    intro c hc
    exact hchar c (strip_subset hc)
  show strip (((pyNorm l).map lowerN).map replaceNbsp) = pyNorm l
  rw [map_fix (fun c hc => (hsub c hc).1), map_fix (fun c hc => (hsub c hc).2)]
  exact strip_strip _

theorem lookupA_mem {k v : Str} : ∀ {t : List (Str × Str)}, lookupA k t = some v → (k, v) ∈ t
  | [], h => by simp [lookupA] at h
  | (k2, v2) :: rest, h => by
    by_cases hk : k = k2
    · simp only [lookupA, if_pos hk] at h
      subst hk
      obtain rfl : v2 = v := by injection h
      exact List.mem_cons_self _ _
    · simp only [lookupA, if_neg hk] at h
      exact List.mem_cons_of_mem _ (lookupA_mem h)

theorem lookupA_of_mem_nodup {k v : Str} :
    ∀ {t : List (Str × Str)}, (k, v) ∈ t → (t.map Prod.fst).Nodup → lookupA k t = some v
  | [], h, _ => by simp at h
  | (k2, v2) :: rest, h, hnd => by
    rcases List.mem_cons.mp h with heq | hmem
    · obtain ⟨rfl, rfl⟩ : k = k2 ∧ v = v2 := by
        constructor <;> [exact congrArg Prod.fst heq; exact congrArg Prod.snd heq]
      simp [lookupA]
    · have hk : k ≠ k2 := by
        intro hkk
        subst hkk
        have : k ∈ rest.map Prod.fst := List.mem_map_of_mem Prod.fst hmem
        simp only [List.map_cons, List.nodup_cons] at hnd
        exact hnd.1 this
      have hnd2 : (rest.map Prod.fst).Nodup := by
        simp only [List.map_cons, List.nodup_cons] at hnd
        exact hnd.2
      simp only [lookupA, if_neg hk]
      exact lookupA_of_mem_nodup hmem hnd2

theorem aliasKeys_nodup : (COUNTRY_ALIASES.map Prod.fst).Nodup := by decide

theorem alias_values_fixed :
    ∀ p ∈ COUNTRY_ALIASES, clean_country (some p.2) = some p.2 := by decide

theorem clean_country_idem : ∀ x, clean_country (clean_country x) = clean_country x := by
  intro x
  cases x with
  | none => rfl
  | some s =>
    rw [clean_country_some s]
    cases h : lookupA (pyNorm s) COUNTRY_ALIASES with
    | none =>
      simp only [Option.getD_none]
      rw [clean_country_some, pyNorm_idem, h]
      simp only [Option.getD_none]
    | some v =>
      simp only [Option.getD_some]
      exact alias_values_fixed (pyNorm s, v) (lookupA_mem h)

theorem parseParts_nonneg : ∀ {ps : List Str} {q : ℚ}, parseParts ps = some q → 0 ≤ q := by
  intro ps q h
  rcases ps with _ | ⟨a, _ | ⟨b, _ | _⟩⟩
  · simp [parseParts] at h
  · simp only [parseParts] at h
    split_ifs at h
    obtain rfl : (natVal a : ℚ) = q := by injection h
    exact Nat.cast_nonneg _
  · simp only [parseParts] at h
    split_ifs at h
    obtain rfl : (natVal a : ℚ) + (natVal b : ℚ) / (10 : ℚ) ^ b.length = q := by injection h
    have h10 : (0 : ℚ) ≤ (10 : ℚ) ^ b.length := pow_nonneg (by norm_num) _
    exact add_nonneg (Nat.cast_nonneg _) (div_nonneg (Nat.cast_nonneg _) h10)
  · simp [parseParts] at h

theorem parseUnsigned_nonneg {s : Str} {q : ℚ} (h : parseUnsigned s = some q) : 0 ≤ q :=
  parseParts_nonneg h

theorem parseNumQ_nonneg {s : Str} {q : ℚ} (hhead : s.head? ≠ some 45)
    (h : parseNumQ s = some q) : 0 ≤ q := by
  unfold parseNumQ at h
  rw [if_neg hhead] at h
  split_ifs at h <;> exact parseUnsigned_nonneg h

theorem to_numeric_cell_nonneg {s : Str} {q : ℚ} (hhead : (cleanCell s).head? ≠ some 45)
    (h : to_numeric_cell (some s) = some q) : 0 ≤ q :=
  parseNumQ_nonneg hhead (by simpa [to_numeric_cell] using h)

theorem parsePop_get {cells : List (Option Str)} {i : Nat} {s : Str}
    (hcell : cells.get? i = some (some s)) :
    (parsePopColumn cells).get? i = some (to_numeric_cell (some s)) := by
  unfold parsePopColumn
  rw [List.get?_map, hcell]
  rfl

/-- Claim C6 (amended): after metadata parsing, every population and GDP
value whose source cell does not begin with a minus sign (after comma
removal and stripping) is non-negative or null; the parser does not itself
enforce non-negativity, so a minus-led cell parses to a negative value. -/
theorem c6_amended :
    ∀ (cells : List (Option Str)) (i : Nat) (s : Str) (q : ℚ),
      cells.get? i = some (some s) → (cleanCell s).head? ≠ some 45 →
      ((df_meta_population cells).get? i = some (some q) → 0 ≤ q) ∧
      ((df_meta_gdp cells).get? i = some (some q) → 0 ≤ q) := by
  intro cells i s q hcell hhead
  constructor
  · intro hq
    unfold df_meta_population fixPopulationUnits at hq
    by_cases hb : ((seriesMax (parsePopColumn cells)).any (fun m => decide (m < 1000000))) = true
    · rw [if_pos hb] at hq
      rw [List.get?_map, parsePop_get hcell] at hq
      simp only [Option.map_some'] at hq
      have hq2 : Option.map (fun q => q * 1000) (to_numeric_cell (some s)) = some q := by
        injection hq
      cases hc : to_numeric_cell (some s) with
      | none =>
        rw [hc] at hq2
        exact absurd hq2 (by simp)
      | some q0 =>
        rw [hc] at hq2
        simp only [Option.map_some'] at hq2
        obtain rfl : q0 * 1000 = q := by injection hq2
        have h0 : 0 ≤ q0 := to_numeric_cell_nonneg hhead hc
        positivity
    · rw [if_neg hb] at hq
      rw [parsePop_get hcell] at hq
      exact to_numeric_cell_nonneg hhead (by injection hq)
  · intro hq
    unfold df_meta_gdp at hq
    rw [List.get?_map, hcell] at hq
    simp only [Option.map_some'] at hq
    exact to_numeric_cell_nonneg hhead (by injection hq)

/-- Claim C6 counterexample: the metadata cell "-5" parses to -5 and the
thousands heuristic turns it into -5000: a negative population value does
appear after parsing, so the non-negativity invariant fails as stated. -/
theorem c6_counterexample :
    df_meta_population [some [45, 53]] = [some (-5000 : ℚ)] ∧ ((-5000 : ℚ) < 0) := by
  constructor
  · have hparse : parsePopColumn [some [45, 53]] = [some (-5 : ℚ)] := by decide
    unfold df_meta_population fixPopulationUnits
    rw [hparse]
    norm_num [seriesMax, Option.any]
  · norm_num

/-- Claim C6 witness for the amended theorem, at the one-cell table
"2000000" (the unit heuristic does not fire, so the parsed value stands). -/
theorem c6_witness : (0 : ℚ) ≤ 2000000 :=
  (c6_amended [some [50, 48, 48, 48, 48, 48, 48]] 0 [50, 48, 48, 48, 48, 48, 48] 2000000
    (by decide) (by decide)).1 (by decide)

/-- Claim C7: the unit heuristic is global and one-shot: when the maximum
parsed population is below 1,000,000 every population value is multiplied
by 1000, and when it is at least 1,000,000 the column is unchanged. -/
theorem c7_population_unit_fix :
    ∀ (cells : List (Option Str)) (m : ℚ),
      seriesMax (parsePopColumn cells) = some m →
      ((m < 1000000 →
          df_meta_population cells = (parsePopColumn cells).map (Option.map (fun q => q * 1000))) ∧
       (1000000 ≤ m → df_meta_population cells = parsePopColumn cells)) := by
  intro cells m h
  unfold df_meta_population fixPopulationUnits
  rw [h]
  constructor
  · intro h1
    have hb : ((some m).any (fun x => decide (x < 1000000))) = true := by simpa using h1
    rw [if_pos hb]
  · intro h2
    have hb : ¬(((some m).any (fun x => decide (x < 1000000))) = true) := by
      simpa using not_lt.mpr h2
    rw [if_neg hb]

/-- Claim C7 witness: the spec example, metadata cell "1,200" with column
maximum 1200 < 1,000,000, normalizes to 1,200,000. -/
theorem c7_witness : df_meta_population [some [49, 44, 50, 48, 48]] = [some (1200000 : ℚ)] := by
  have h := (c7_population_unit_fix [some [49, 44, 50, 48, 48]] 1200 (by decide)).1 (by decide)
  rw [h]
  have hparse : parsePopColumn [some [49, 44, 50, 48, 48]] = [some (1200 : ℚ)] := by decide
  rw [hparse]
  norm_num

theorem mergeRows_length {β γ : Type} {padRow : γ} {f : β → γ} {ms : List β}
    (h : ms.length ≤ 1) : (mergeRows padRow f ms).length = 1 := by
  cases ms with
  | nil => rfl
  | cons m rest =>
    simp only [List.length_cons] at h
    have hr : rest.length = 0 := by omega
    have : rest = [] := List.length_eq_zero.mp hr
    subst this
    rfl

theorem leftMerge_cons {α β γ : Type} (kL : α → Option Str) (kR : β → Option Str)
    (pad : α → γ) (comb : α → β → γ) (x : α) (xs : List α) (R : List β) :
    leftMerge kL kR pad comb (x :: xs) R =
      mergeRows (pad x) (comb x) (R.filter (fun r => kR r == kL x)) ++
        leftMerge kL kR pad comb xs R := rfl

theorem leftMerge_length {α β γ : Type} (kL : α → Option Str) (kR : β → Option Str)
    (pad : α → γ) (comb : α → β → γ) (R : List β) :
    ∀ L : List α,
      (∀ x ∈ L, (R.filter (fun r => kR r == kL x)).length ≤ 1) →
      (leftMerge kL kR pad comb L R).length = L.length := by
  intro L
  induction L with
  | nil => intro _; rfl
  | cons x xs ih =>
    intro h
    rw [leftMerge_cons, List.length_append,
      mergeRows_length (h x (List.mem_cons_self x xs)),
      ih (fun y hy => h y (List.mem_cons_of_mem x hy)), List.length_cons]
    omega

theorem filter_one_of_nodup {β : Type} (kR : β → Option Str) :
    ∀ R : List β, (R.map kR).Nodup → ∀ k, (R.filter (fun r => kR r == k)).length ≤ 1 := by
  intro R
  induction R with
  | nil => intro _ k; simp
  | cons r rest ih =>
    intro hnd k
    simp only [List.map_cons, List.nodup_cons] at hnd
    rw [List.filter_cons]
    by_cases hr : (kR r == k) = true
    · rw [if_pos hr]
      have hrest : rest.filter (fun r2 => kR r2 == k) = [] := by
        rw [List.filter_eq_nil]
        intro b hb hbk
        have h1 : kR b = k := by simpa using hbk
        have h2 : kR r = k := by simpa using hr
        apply hnd.1
        rw [h2, ← h1]
        exact List.mem_map_of_mem kR hb
      rw [hrest]
      simp
    · rw [if_neg hr]
      exact ih hnd.2 k

theorem leftMerge_map {α β γ δ : Type} (kL : α → Option Str) (kR : β → Option Str)
    (pad : α → γ) (comb : α → β → γ) (f : γ → δ) (g : α → δ) (R : List β)
    (hpad : ∀ x, f (pad x) = g x) (hcomb : ∀ x b, f (comb x b) = g x) :
    ∀ L : List α,
      (∀ x ∈ L, (R.filter (fun r => kR r == kL x)).length ≤ 1) →
      (leftMerge kL kR pad comb L R).map f = L.map g := by
  intro L
  induction L with
  | nil => intro _; rfl
  | cons x xs ih =>
    intro h
    rw [leftMerge_cons, List.map_append, ih (fun y hy => h y (List.mem_cons_of_mem x hy))]
    have h1 := h x (List.mem_cons_self x xs)
    cases hf : R.filter (fun r => kR r == kL x) with
    | nil =>
      simp [mergeRows, hpad]
    | cons m rest2 =>
      rw [hf] at h1
      simp only [List.length_cons] at h1
      have : rest2 = [] := List.length_eq_zero.mp (by omega)
      subst this
      simp [mergeRows, hcomb]

theorem leftMerge_pad_mem {α β γ : Type} {kL : α → Option Str} {kR : β → Option Str}
    {pad : α → γ} {comb : α → β → γ} {x : α} {L : List α} {R : List β}
    (hx : x ∈ L) (hfil : R.filter (fun r => kR r == kL x) = []) :
    pad x ∈ leftMerge kL kR pad comb L R := by
  unfold leftMerge
  refine List.mem_bind.mpr ⟨x, hx, ?_⟩
  rw [hfil]
  simp [mergeRows]

theorem leftMerge_comb_mem {α β γ : Type} {kL : α → Option Str} {kR : β → Option Str}
    {pad : α → γ} {comb : α → β → γ} {x : α} {b : β} {L : List α} {R : List β}
    (hx : x ∈ L) (hb : b ∈ R) (hk : (kR b == kL x) = true) :
    comb x b ∈ leftMerge kL kR pad comb L R := by
  unfold leftMerge
  refine List.mem_bind.mpr ⟨x, hx, ?_⟩
  have hbf : b ∈ R.filter (fun r => kR r == kL x) := List.mem_filter.mpr ⟨hb, hk⟩
  cases hfil : R.filter (fun r => kR r == kL x) with
  | nil =>
    rw [hfil] at hbf
    simp at hbf
  | cons m rest =>
    rw [hfil] at hbf
    simp only [mergeRows, List.isEmpty_cons, Bool.false_eq_true, if_false]
    exact List.mem_map_of_mem _ hbf

theorem df_map_keys (agg : List AggRow) (meta : List MetaRow)
    (hmeta : (meta.map metaKey).Nodup) :
    (df_map agg meta).map MapRow.key = agg.map aggKey := by
  unfold df_map
  exact leftMerge_map aggKey metaKey _ _ MapRow.key aggKey meta
    (fun _ => rfl) (fun _ _ => rfl) agg
    (fun a _ => filter_one_of_nodup metaKey meta hmeta (aggKey a))

/-- Claim C2 (amended): when no two article-country labels and no two
metadata rows share a cleaned key, the reconciled output has exactly one
row per geo entity; a geo entity with no article match appears with
total_articles 0 (never missing) and null population and GDP, and one whose
articles match but whose metadata does not appears with its article count
and null population and GDP.  (Without that hypothesis a cleaned-key
collision duplicates the geo row, see the counterexample.) -/
theorem c2_amended :
    ∀ (geo : List Str) (agg : List AggRow) (meta : List MetaRow),
      (agg.map aggKey).Nodup → (meta.map metaKey).Nodup →
      ((df_map_full geo agg meta).length = geo.length ∧
       (∀ g ∈ geo, (∀ a ∈ agg, aggKey a ≠ geoKey g) →
          (⟨g, geoKey g, 0, .nan, .nan⟩ : FullRow) ∈ df_map_full geo agg meta) ∧
       (∀ g ∈ geo, ∀ a ∈ agg, aggKey a = geoKey g →
          (∀ m ∈ meta, metaKey m ≠ geoKey g) →
          (⟨g, geoKey g, a.total_articles, .nan, .nan⟩ : FullRow) ∈ df_map_full geo agg meta)) := by
  intro geo agg meta hagg hmeta
  have hkeys : (df_map agg meta).map MapRow.key = agg.map aggKey := df_map_keys agg meta hmeta
  have hnd : ((df_map agg meta).map MapRow.key).Nodup := by
    rw [hkeys]
    exact hagg
  refine ⟨?_, ?_, ?_⟩
  · unfold df_map_full
    rw [List.length_map]
    unfold df_map_full0
    exact leftMerge_length geoKey MapRow.key _ _ (df_map agg meta) geo
      (fun g _ => filter_one_of_nodup MapRow.key (df_map agg meta) hnd (geoKey g))
  · intro g hg hno
    have hfil : (df_map agg meta).filter (fun m => m.key == geoKey g) = [] := by
      rw [List.filter_eq_nil]
      intro mrow hmrow hbeq
      have hmk : mrow.key ∈ (df_map agg meta).map MapRow.key := List.mem_map_of_mem _ hmrow
      rw [hkeys] at hmk
      obtain ⟨a, ha, hak⟩ := List.mem_map.mp hmk
      have heq : mrow.key = geoKey g := by simpa using hbeq
      exact hno a ha (hak.trans heq)
    have hmem0 : (⟨g, geoKey g, none, .nan, .nan⟩ : FullRow0) ∈
        df_map_full0 geo (df_map agg meta) := by
      unfold df_map_full0
      exact leftMerge_pad_mem hg hfil
    exact List.mem_map_of_mem fillTotal hmem0
  · intro g hg a ha hak hnometa
    have hfilmeta : meta.filter (fun m => metaKey m == aggKey a) = [] := by
      rw [List.filter_eq_nil]
      intro m hm hbeq
      have heq : metaKey m = aggKey a := by simpa using hbeq
      exact hnometa m hm (heq.trans hak)
    have hpadmem : (⟨aggKey a, a.total_articles, .nan, .nan⟩ : MapRow) ∈ df_map agg meta := by
      unfold df_map
      exact leftMerge_pad_mem ha hfilmeta
    have hcombmem : (⟨g, geoKey g, some a.total_articles, .nan, .nan⟩ : FullRow0) ∈
        df_map_full0 geo (df_map agg meta) := by
      unfold df_map_full0
      have hkey : ((⟨aggKey a, a.total_articles, .nan, .nan⟩ : MapRow).key == geoKey g) = true := by
        show (aggKey a == geoKey g) = true
        rw [hak]
        exact beq_self_eq_true _
      exact leftMerge_comb_mem hg hpadmem hkey
    exact List.mem_map_of_mem fillTotal hcombmem

/-- Claim C2 counterexample: two article labels that clean to the same key
(the two spellings of the ivory-coast entity) make the reconciled output
carry two rows for a single geo entity, so the output length is not always
the number of geo entities. -/
theorem c2_counterexample :
    (df_map_full [coteGeoName]
        [⟨[67,111,116,101,32,100,39,73,118,111,105,114,101], 3⟩,
         ⟨[99,244,116,101,32,100,39,105,118,111,105,114,101], 2⟩] []).length = 2 ∧
    ([coteGeoName] : List Str).length = 1 := by decide

/-- Claim C2 witness for the amended theorem: a single geo entity with no
article and no metadata rows yields exactly one row, with total_articles 0
and null population and GDP. -/
theorem c2_witness :
    (df_map_full [[75,101,110,121,97]] [] []).length = 1 ∧
    (⟨[75,101,110,121,97], geoKey [75,101,110,121,97], 0, .nan, .nan⟩ : FullRow) ∈
      df_map_full [[75,101,110,121,97]] [] [] := by
  have h := c2_amended [[75,101,110,121,97]] [] [] (by decide) (by decide)
  exact ⟨h.1, h.2.1 [75,101,110,121,97] (by decide) (by intro a ha; simp at ha)⟩

/-- Claim C3 counterexample: the two raw spellings resolve to one canonical
key, yet feeding article rows with both spellings through the pipeline
yields two reconciled rows keyed by that entity, not one, because the
groupby of line 131 groups on the raw label before cleaning. -/
theorem c3_counterexample :
    clean_country (some [67,111,116,101,32,100,39,73,118,111,105,114,101]) =
      clean_country (some [99,244,116,101,32,100,39,105,118,111,105,114,101]) ∧
    (df_map_full [coteGeoName] (df_gb_year_country coteRows) []).countP
        (fun r => r.key == some [105,118,111,114,121,32,99,111,97,115,116]) ≠ 1 := by decide

/-- Claim C3 (amended): both raw spellings resolve to the identical
canonical key "ivory coast", but with both spellings present as article
country labels the reconciled output contains one row per raw spelling:
two rows for the entity, not one. -/
theorem c3_amended :
    clean_country (some [67,111,116,101,32,100,39,73,118,111,105,114,101]) =
      some [105,118,111,114,121,32,99,111,97,115,116] ∧
    clean_country (some [99,244,116,101,32,100,39,105,118,111,105,114,101]) =
      some [105,118,111,114,121,32,99,111,97,115,116] ∧
    (df_map_full [coteGeoName] (df_gb_year_country coteRows) []).length = 2 := by decide

/-- Claim C1 counterexample: a reconciled row with population 0, GDP 0 and
one article gets +infinity for both derived metrics, not null. -/
theorem c1_counterexample :
    (withMetrics ⟨[], none, 1, .fin 0, .fin 0⟩).articles_per_million = PFloat.inf ∧
    (withMetrics ⟨[], none, 1, .fin 0, .fin 0⟩).articles_per_gdp = PFloat.inf ∧
    PFloat.inf ≠ PFloat.nan := by
  refine ⟨?_, ?_, by decide⟩
  · norm_num [withMetrics, articles_per_million_people, PFloat.div]
  · norm_num [withMetrics, articles_per_billion_gdp, PFloat.div]

/-- Claim C1 (amended): the derived metrics never fault; a null population
or GDP makes the metric null, while a zero population or GDP makes it null
when total_articles is 0 and +infinity when total_articles is positive. -/
theorem c1_amended :
    ∀ r : FullRow,
      (r.population = .nan → (withMetrics r).articles_per_million = .nan) ∧
      (r.gdp = .nan → (withMetrics r).articles_per_gdp = .nan) ∧
      (r.population = .fin 0 →
        (withMetrics r).articles_per_million =
          (if r.total_articles = 0 then .nan else .inf)) ∧
      (r.gdp = .fin 0 →
        (withMetrics r).articles_per_gdp =
          (if r.total_articles = 0 then .nan else .inf)) := by
  intro r
  refine ⟨?_, ?_, ?_, ?_⟩
  · intro h
    norm_num [withMetrics, articles_per_million_people, h, PFloat.div]
  · intro h
    norm_num [withMetrics, articles_per_billion_gdp, h, PFloat.div]
  · intro h
    by_cases ht : r.total_articles = 0
    · norm_num [withMetrics, articles_per_million_people, h, ht, PFloat.div]
    · have htq : ((r.total_articles : ℚ) ≠ 0) := by exact_mod_cast ht
      have htpos : (0 : ℚ) < (r.total_articles : ℚ) :=
        Nat.cast_pos.mpr (Nat.pos_of_ne_zero ht)
      norm_num [withMetrics, articles_per_million_people, h, ht, htq, htpos, PFloat.div]
  · intro h
    by_cases ht : r.total_articles = 0
    · norm_num [withMetrics, articles_per_billion_gdp, h, ht, PFloat.div]
    · have htq : ((r.total_articles : ℚ) ≠ 0) := by exact_mod_cast ht
      have htpos : (0 : ℚ) < (r.total_articles : ℚ) :=
        Nat.cast_pos.mpr (Nat.pos_of_ne_zero ht)
      norm_num [withMetrics, articles_per_billion_gdp, h, ht, htq, htpos, PFloat.div]

/-- Claim C1 witness for the amended theorem, at a row with two articles
and population and GDP 0. -/
theorem c1_witness :
    (withMetrics ⟨[], none, 2, .fin 0, .fin 0⟩).articles_per_million = PFloat.inf := by
  have h := (c1_amended ⟨[], none, 2, .fin 0, .fin 0⟩).2.2.1 rfl
  simpa using h

/-- Claim C4 counterexample: the key "Djibouti." is in the override table,
but resolving it lower-cases first, misses the table, and returns
"djibouti." instead of the mapped value "djibouti". -/
theorem c4_counterexample :
    (([68,106,105,98,111,117,116,105,46], [100,106,105,98,111,117,116,105]) ∈ COUNTRY_ALIASES) ∧
    clean_country (some [68,106,105,98,111,117,116,105,46]) ≠
      some [100,106,105,98,111,117,116,105] := by decide

/-- Claim C4 (amended): the resolver is idempotent on every input, and for
every override-table key that is already in normalized form (lower-case,
stripped) resolving the key returns the mapped value, which is itself a
fixed point of the resolver.  (Keys not in normalized form, such as
"Djibouti." and the concatenation artifact at line 24, are never matched;
see the counterexample.) -/
theorem c4_amended :
    (∀ x, clean_country (clean_country x) = clean_country x) ∧
    (∀ k v : Str, (k, v) ∈ COUNTRY_ALIASES → pyNorm k = k →
      clean_country (some k) = some v ∧ clean_country (some v) = some v) := by
  constructor
  · exact clean_country_idem
  · intro k v hmem hnorm
    constructor
    · rw [clean_country_some, hnorm, lookupA_of_mem_nodup hmem aliasKeys_nodup]
      rfl
    · exact alias_values_fixed (k, v) hmem

/-- Claim C4 witness for the amended theorem, at the normalized table key
"south sudan" with value "s. sudan". -/
theorem c4_witness :
    clean_country (some [115,111,117,116,104,32,115,117,100,97,110]) =
      some [115,46,32,115,117,100,97,110] ∧
    clean_country (some [115,46,32,115,117,100,97,110]) = some [115,46,32,115,117,100,97,110] :=
  c4_amended.2 [115,111,117,116,104,32,115,117,100,97,110] [115,46,32,115,117,100,97,110]
    (by decide) (by decide)

/-- Claim C5 counterexample: the empty string is not missing for pd.isna,
so clean_country returns the empty string itself as a key, not null. -/
theorem c5_counterexample :
    clean_country (some []) = some [] ∧ clean_country (some []) ≠ none := by decide

/-- Claim C5 (amended): a null input resolves to null, but an empty-string
input resolves to the empty string as a key, because pd.isna is False on
the empty string and the alias table has no entry for it. -/
theorem c5_amended :
    clean_country none = none ∧ clean_country (some []) = some [] := by decide

/-- Claim C8: with kenya_2021.csv (3 rows) and kenya_2022.csv (5 rows) in a
directory named AfricanArticles, the year regex finds nothing in the stem
kenya_2021 (the underscore is a word character, so there is no word
boundary before the digits), the Year column falls back to
"AfricanArticles", and filtering for 2021 or 2022 leaves no rows at all:
the aggregate has no Kenya entry instead of total_articles 3 resp. 5. -/
theorem c8_year_extraction_bug :
    findYear [107,101,110,121,97,95,50,48,50,49] = none ∧
    (load_and_combine_data [kenya_2021_csv, kenya_2022_csv]).toOption.map
        (fun rows => df_gb_year_country (df_year rows [50,48,50,49])) = some [] ∧
    (load_and_combine_data [kenya_2021_csv, kenya_2022_csv]).toOption.map
        (fun rows => df_gb_year_country (df_year rows [50,48,50,50])) = some [] := by decide

/-- Claim C9: loading a root directory containing zero CSV files raises
(pd.concat of an empty list of frames) instead of returning an empty row
sequence. -/
theorem c9_empty_concat_raises :
    load_and_combine_data [] = Except.error LoadError.noObjectsToConcatenate := rfl

/-- Claim C10: a metadata column whose name contains both "Population" and
"GDP" is renamed to "GDP": the GDP rule of the loop overwrites the
Population rule, so no canonical Population field comes from it. -/
theorem c10_gdp_overwrites_population :
    ∀ c : Str,
      hasSub [80,111,112,117,108,97,116,105,111,110] c = true →
      hasSub [71,68,80] c = true →
      renameColumn c = [71,68,80] ∧
        renameColumn c ≠ [80,111,112,117,108,97,116,105,111,110] := by
  intro c h1 h2
  constructor
  · unfold renameColumn rename_dict_entry
    rw [if_pos h2]
    rfl
  · unfold renameColumn rename_dict_entry
    rw [if_pos h2]
    simp only [Option.getD_some]
    decide

/-- Claim C10 witness, at the column name "PopulationGDP". -/
theorem c10_witness :
    renameColumn [80,111,112,117,108,97,116,105,111,110,71,68,80] = [71,68,80] :=
  (c10_gdp_overwrites_population [80,111,112,117,108,97,116,105,111,110,71,68,80]
    (by decide) (by decide)).1

end ACN
